import Mathlib

/-!
Verification of the retry-and-turn-orchestration core of the gemini-debate-app
repository: the `/api/debate` generation route, the `/api/models` listing route,
and the client-side debate orchestration (history windowing, turn scheduling,
cancellation, judging hand-off). Each definition is a shallow embedding of the
corresponding TypeScript source.
-/

namespace DebateApp

/-- Protocol role of a conversational turn, as required by the external API. -/
inductive Role where
  | user
  | model
deriving DecidableEq, Repr

/-- String form of a role, used in server-side error messages. -/
def Role.str : Role → String
  | .user => "user"
  | .model => "model"

/-- Lexicographic (code-point) order on character lists; model of plain string
comparison. -/
def charListLe : List Char → List Char → Bool
  | [], _ => true
  | _ :: _, [] => false
  | a :: as, b :: bs =>
    if a.toNat < b.toNat then true
    else if b.toNat < a.toNat then false
    else charListLe as bs

/-- String comparison by code points. -/
def strLe (a b : String) : Bool := charListLe a.data b.data

/-- Whether `pat` occurs at the start of `l`. -/
def startsWithL : List Char → List Char → Bool
  | [], _ => true
  | _ :: _, [] => false
  | a :: as, b :: bs => a == b && startsWithL as bs

/-- Whether `pat` occurs anywhere in `l`. -/
def containsL (pat : List Char) : List Char → Bool
  | [] => startsWithL pat []
  | s@(_ :: t) => startsWithL pat s || containsL pat t

/-- Model of the JavaScript `s.includes(pat)` substring test. -/
def strIncludes (s pat : String) : Bool := containsL pat.data s.data

/-- Model of the JavaScript `s.split(c)` on a single-character separator. -/
def splitChar (c : Char) : List Char → List (List Char)
  | [] => [[]]
  | a :: as =>
    match splitChar c as with
    | [] => [[]]
    | g :: gs => if a == c then [] :: g :: gs else (a :: g) :: gs

/-- Attempt budget shared by the server routes (`MAX_RETRIES = 500` in both the
debate route and the models route). -/
def MAX_RETRIES : Nat := 500

/-! ## Server: POST /debate (generation route) -/

/-- One content part of an API history entry (`{text}`). -/
structure ApiPart where
  text : String
deriving DecidableEq, Repr

/-- One entry of the `history` field of a POST /debate body (`{role, parts}`). -/
structure ApiEntry where
  role : Role
  parts : List ApiPart
deriving DecidableEq, Repr

/-- Parsed POST /debate request body; `none` models an absent (undefined) field. -/
structure DebateBody where
  model : Option String
  systemPrompt : Option String
  history : Option (List ApiEntry)
deriving Repr

/-- Response of the debate route: 200 `{text, retries}`, 400 `{error}`, or
500 `{error, details}`. -/
inductive DebateResp where
  | ok (text : String) (retries : Nat)
  | badRequest (error : String)
  | serverError (error : String) (details : String)
deriving DecidableEq, Repr

/-- HTTP status of a debate-route response. -/
def DebateResp.status : DebateResp → Nat
  | .ok _ _ => 200
  | .badRequest _ => 400
  | .serverError _ _ => 500

/-- The fixed `error` field of the debate route's 500 responses. -/
def failedMsg : String := "Failed to get response from AI"

/-- Detail string thrown when the retry loop exhausts its budget
(`Failed after MAX_RETRIES retries. Last error: ...`). -/
def exhaustDetails (lastErr : Option String) : String :=
  "Failed after " ++ toString MAX_RETRIES ++ " retries. Last error: " ++ lastErr.getD "undefined"

/-- The debate route's `sendMessage` retry loop. `op i` is the outcome of the
model call on attempt `i` (0-indexed); an error message containing "403" is
retryable, anything else is rethrown. Returns the response and the number of
model calls made. -/
def sendLoop (op : Nat → Except String String) : Nat → Nat → Option String → DebateResp × Nat
  | 0, _, lastErr => (.serverError failedMsg (exhaustDetails lastErr), 0)
  | b + 1, i, lastErr =>
    match op i with
    | .ok t => (.ok t i, 1)
    | .error m =>
      if strIncludes m "403" then
        let r := sendLoop op b (i + 1) (some m)
        (r.1, r.2 + 1)
      else
        (.serverError failedMsg m, 1)

/-- Model of `history[history.length - 1]?.parts[0]?.text || ''`. -/
def lastMessageOf (h : List ApiEntry) : String :=
  (((h.getLast?).bind (fun e => e.parts.head?)).map ApiPart.text).getD ""

/-- Outcome of one POST /debate request: the response, the number of model
calls made, and (when the generation stage is reached) the history passed to
`startChat` together with the message passed to `sendMessage`. -/
structure RouteOutcome where
  resp : DebateResp
  modelCalls : Nat
  chatSent : Option (List ApiEntry × String)
deriving DecidableEq, Repr

/-- JavaScript falsiness of an optional string (`!x`): absent or empty. -/
def falsyStr : Option String → Bool
  | none => true
  | some s => s.isEmpty

/-- Detail text of the TypeError raised by the debug log line
`systemPrompt.substring(0, 100)` when `systemPrompt` is undefined. -/
def substrTypeError : String :=
  "Cannot read properties of undefined (reading \x27substring\x27)"

/-- Detail text of the TypeError raised by the debug log line reading
`history.length` when `history` is undefined. -/
def lengthTypeError : String :=
  "Cannot read properties of undefined (reading \x27length\x27)"

/-- Message of the error thrown by the first-message role validation. -/
def roleErrorMsg (got : String) : String :=
  "First content should be with role \x27user\x27, got " ++ got

/-- Body of the 400 response for missing required fields. -/
def missingFieldsMsg : String := "Missing required fields: model, systemPrompt, and history"

/-- Continuation of the debate route after the logging and role checks have
passed: the required-field check, then chat creation and the retry loop. -/
def debateWithHistory (model : Option String) (sp : String) (h : List ApiEntry)
    (op : Nat → Except String String) : RouteOutcome :=
  if falsyStr model || sp.isEmpty then
    ⟨.badRequest missingFieldsMsg, 0, none⟩
  else
    let r := sendLoop op MAX_RETRIES 0 none
    ⟨r.1, r.2, some (h, lastMessageOf h)⟩

/-- The POST /debate handler: JSON destructuring, debug logging (which throws a
TypeError when `systemPrompt` or `history` is undefined), the first-message
role validation, the required-field check, then the retry loop; all thrown
errors become 500 `{error, details}` responses. -/
def debatePOST (body : DebateBody) (op : Nat → Except String String) : RouteOutcome :=
  match body.systemPrompt with
  | none => ⟨.serverError failedMsg substrTypeError, 0, none⟩
  | some sp =>
    match body.history with
    | none => ⟨.serverError failedMsg lengthTypeError, 0, none⟩
    | some h =>
      match h.head? with
      | some e0 =>
        if e0.role ≠ Role.user then
          ⟨.serverError failedMsg (roleErrorMsg e0.role.str), 0, none⟩
        else debateWithHistory body.model sp h op
      | none => debateWithHistory body.model sp h op

/-! ## Server: GET /models (listing route) -/

/-- One catalog entry returned by the external models endpoint. -/
structure GeminiModel where
  name : String
  displayName : String
  description : String
  supportedGenerationMethods : List String
deriving DecidableEq, Repr

/-- One entry of the route's own response (`{id, name}`). -/
structure ModelEntry where
  id : String
  name : String
deriving DecidableEq, Repr

/-- Model of `name.split(\x27/\x27).pop()`: the trailing path segment. -/
def trailingSegment (s : String) : String :=
  String.mk ((splitChar '/' s.data).getLastD [])

/-- Descending-id order used by the route's sort comparator
`(a, b) => b.id.localeCompare(a.id)`. -/
def entryGe (a b : ModelEntry) : Prop := strLe b.id a.id = true

instance : DecidableRel entryGe := fun a b => inferInstanceAs (Decidable (_ = true))

/-- The filter-map-sort pipeline of the models route: keep entries supporting
`generateContent`, map to `{id, name}`, sort by id descending. -/
def filteredModelsOf (ms : List GeminiModel) : List ModelEntry :=
  List.insertionSort entryGe
    ((ms.filter (fun m => m.supportedGenerationMethods.contains "generateContent")).map
      (fun m => ⟨trailingSegment m.name, m.displayName⟩))

/-- Outcome of one fetch of the external catalog endpoint, as classified by the
route: parsed OK, OK but malformed payload (JSON or shape error thrown),
HTTP 403, another non-ok status, or a network-level error. -/
inductive FetchResult where
  | ok (models : List GeminiModel)
  | okMalformed (message : String)
  | rateLimited
  | otherStatus (status : Nat) (body : String)
  | netError (message : String)
deriving DecidableEq, Repr

/-- Whether a fetch outcome is a failure (anything but a parsed-OK response). -/
def FetchResult.isFailure : FetchResult → Bool
  | .ok _ => false
  | _ => true

/-- Response of the models route: 200 `{models, retries}`, 404 when no
compatible models, or 500 `{error, details}` after exhausting the budget. -/
inductive ModelsResp where
  | ok (models : List ModelEntry) (retries : Nat)
  | noModels
  | failed (details : String)
deriving DecidableEq, Repr

/-- HTTP status of a models-route response. -/
def ModelsResp.status : ModelsResp → Nat
  | .ok _ _ => 200
  | .noModels => 404
  | .failed _ => 500

/-- The `error` field of a models-route response body, when present. -/
def ModelsResp.errorBody : ModelsResp → Option String
  | .ok _ _ => none
  | .noModels => some "No compatible models available"
  | .failed _ => some "Failed to fetch models after all retries"

/-- The models route's fetch loop. Every failure outcome (403, other status,
network error, malformed payload) updates `lastError` and retries after the
delay; only a parsed-OK response returns. Returns the response and the number
of fetches made. -/
def modelsLoop (fetch : Nat → FetchResult) : Nat → Nat → Option String → ModelsResp × Nat
  | 0, _, lastErr => (.failed (lastErr.getD "An unknown error occurred"), 0)
  | b + 1, i, lastErr =>
    match fetch i with
    | .ok ms =>
      let fl := filteredModelsOf ms
      if fl.isEmpty then (.noModels, 1) else (.ok fl i, 1)
    | .okMalformed m =>
      let r := modelsLoop fetch b (i + 1) (some m)
      (r.1, r.2 + 1)
    | .rateLimited =>
      let r := modelsLoop fetch b (i + 1)
        (some ("Attempt " ++ toString (i + 1) ++ " failed with 403 Forbidden"))
      (r.1, r.2 + 1)
    | .otherStatus st body =>
      let r := modelsLoop fetch b (i + 1)
        (some ("API request failed with status " ++ toString st ++ ": " ++ body))
      (r.1, r.2 + 1)
    | .netError m =>
      let r := modelsLoop fetch b (i + 1) (some m)
      (r.1, r.2 + 1)

/-- The GET /models handler: the fetch loop with the full attempt budget. -/
def modelsGET (fetch : Nat → FetchResult) : ModelsResp × Nat :=
  modelsLoop fetch MAX_RETRIES 0 none

/-! ## Client: debate page orchestration -/

/-- Maximum number of transcript turns sent to the API per call. -/
def HISTORY_WINDOW_SIZE : Nat := 50

/-- Maximum turns per debating side in two-agent mode. -/
def MAX_TURNS : Nat := 25

/-- Display/attribution tag of a transcript message (`sender` field). -/
inductive Sender where
  | ai1
  | ai2
  | systemTag
  | player
deriving DecidableEq, Repr

/-- Display name of a sender. -/
def senderName : Sender → String
  | .ai1 => "AI 1"
  | .ai2 => "AI 2"
  | .systemTag => "System"
  | .player => "Player"

/-- One client-side transcript message; the page always uses exactly one text
part, modelled here as a single `text` field. -/
structure Message where
  role : Role
  text : String
  sender : Sender
deriving DecidableEq, Repr

/-- Model of `arr.slice(-n)` for `n ≥ 1`: the last `n` elements. -/
def sliceLast (n : Nat) (l : List α) : List α := l.drop (l.length - n)

/-- The tone constraint appended to every synthetic prompt. -/
def emotionalConstraint : String := "常に冷静で、感情的にならずに論理的な議論をしてください。"

/-- The opening instruction seeded into the transcript at debate start. -/
def initialPromptText (topic : String) : String :=
  "これから討論を始めます。議題は「" ++ topic ++
    "」です。あなたの最初の意見を、日本語で150文字程度にまとめて述べてください。" ++ emotionalConstraint

/-- The error-banner text set when the user stops the debate. -/
def cancelNotice : String := "討論がユーザーによって停止されました。"

/-- The synthetic counter-argument prompt injected after each response,
addressed to the next agent by name. -/
def counterPromptText (nextName : String) : String :=
  "あなたは" ++ nextName ++
    "として、あなた独自の性格と価値観を保ちながら、直前の発言に対して反論してください。相手の論理に流されず、あなた自身の視点で150文字程度にまとめてください。" ++
    emotionalConstraint

/-- Window construction in `handleStartDebate`: take the last
`HISTORY_WINDOW_SIZE` turns, then drop a single leading `model`-role turn
(`if (w.length > 0 && w[0].role === \x27model\x27) w = w.slice(1)`). -/
def historyForApiStart (hist : List Message) : List Message :=
  match sliceLast HISTORY_WINDOW_SIZE hist with
  | [] => []
  | m :: rest => if m.role = Role.model then rest else m :: rest

/-- Window construction in `runAIDebate`: take the last `HISTORY_WINDOW_SIZE`
turns, then drop every leading `model`-role turn (`while` loop). -/
def windowAI (hist : List Message) : List Message :=
  (sliceLast HISTORY_WINDOW_SIZE hist).dropWhile (fun m => decide (m.role = Role.model))

/-- One entry of the payload sent to POST /debate (`{role, parts:[{text}]}`,
with the single part flattened to `text`). -/
structure ApiMsg where
  role : Role
  text : String
deriving DecidableEq, Repr

/-- Strip attribution fields, keeping only `role` and the text. -/
def toApiMsg (m : Message) : ApiMsg := ⟨m.role, m.text⟩

/-- Payload construction in `runAIDebate`: map the trimmed window to API
shape, then prepend the opening instruction when the result is empty or does
not start with a `user`-role entry. -/
def historyForApiAI (topic : String) (hist : List Message) : List ApiMsg :=
  match (windowAI hist).map toApiMsg with
  | [] => [⟨Role.user, initialPromptText topic⟩]
  | e :: rest =>
    if e.role ≠ Role.user then ⟨Role.user, initialPromptText topic⟩ :: e :: rest
    else e :: rest

/-- Acting agent for turn index `i`: AI 1 on even, AI 2 on odd. -/
def agentAt (i : Nat) : Sender := if i % 2 = 0 then Sender.ai1 else Sender.ai2

/-- One generation call issued by the loop: its turn index, acting agent and
submitted payload. -/
structure GenCall where
  turnIndex : Nat
  agent : Sender
  payload : List ApiMsg
deriving DecidableEq, Repr

/-- Result of the two-agent loop body: calls issued, final transcript, and the
error banner (set by cancellation or by a failed call), if any. -/
structure LoopResult where
  calls : List GenCall
  history : List Message
  banner : Option String
deriving Repr

/-- Transcript extension of one successful iteration: the model response
attributed to the acting agent, followed by the synthetic counter prompt for
the next agent. -/
def nextHist (text : String) (i : Nat) (hist : List Message) : List Message :=
  hist ++
    [⟨Role.model, text, agentAt i⟩,
     ⟨Role.user, counterPromptText (senderName (agentAt (i + 1))), Sender.systemTag⟩]

/-- The two-agent loop of `runAIDebate`. `cancel i` is the value of the stop
flag observed at the top of iteration `i`; `gen i` is the outcome of the
generation call of iteration `i` (error = non-ok HTTP response, whose message
becomes the banner). On success the model response and the synthetic counter
prompt for the next agent are appended to the transcript. -/
def runLoop (topic : String) (cancel : Nat → Bool) (gen : Nat → Except String String) :
    Nat → Nat → List Message → LoopResult
  | 0, _, hist => ⟨[], hist, none⟩
  | b + 1, i, hist =>
    if cancel i then ⟨[], hist, some cancelNotice⟩
    else
      let call : GenCall := ⟨i, agentAt i, historyForApiAI topic hist⟩
      match gen i with
      | .error m => ⟨[call], hist, some m⟩
      | .ok text =>
        let r := runLoop topic cancel gen b (i + 1) (nextHist text i hist)
        ⟨call :: r.calls, r.history, r.banner⟩

/-- Result of a whole `runAIDebate` invocation, including whether the judging
phase was entered (the `finally` block judges iff the transcript has more than
one entry). -/
structure DebateRun where
  calls : List GenCall
  history : List Message
  banner : Option String
  judged : Bool
deriving Repr

/-- The seed transcript built by `handleStartDebate`: a single `user`-role
turn carrying the opening instruction. -/
def seedFor (topic : String) : List Message :=
  [⟨Role.user, initialPromptText topic, Sender.systemTag⟩]

/-- The `runAIDebate` orchestrator: the two-agent loop over `2 × maxTurns`
iterations, then the judging hand-off guarded by `history.length > 1`. -/
def runAIDebate (topic : String) (cancel : Nat → Bool) (gen : Nat → Except String String)
    (maxTurns : Nat) (seed : List Message) : DebateRun :=
  let r := runLoop topic cancel gen (2 * maxTurns) 0 seed
  ⟨r.calls, r.history, r.banner, decide (r.history.length > 1)⟩

/-! ## Helper lemmas -/

/-- A fixed model-role turn used in concrete counterexamples. -/
def mTurn : Message := ⟨Role.model, "m", Sender.ai1⟩

/-- A fixed user-role turn used in concrete counterexamples. -/
def uTurn : Message := ⟨Role.user, "u", Sender.systemTag⟩

/-- A nonempty string is not `isEmpty`. -/
theorem isEmpty_false_of_ne {s : String} (h : s ≠ "") : s.isEmpty = false := by
  by_cases he : s.isEmpty = true
  · exact absurd ((String.isEmpty_iff s).mp he) h
  · simpa using he

/-- Dropping every leading model-role turn leaves a list that does not start
with a model-role turn. -/
theorem dropWhileModel_head (w : List Message) :
    (w.dropWhile (fun m => decide (m.role = Role.model))).head?.map Message.role ≠
      some Role.model := by
  induction w with
  | nil => simp
  | cons a t ih =>
    by_cases h : a.role = Role.model
    · simpa [List.dropWhile_cons, h] using ih
    · simp [List.dropWhile_cons, h]

/-! ## Claim theorems -/

/-- C1 (amended): in `runAIDebate` every leading run of model-role turns is
stripped, so for any transcript the trimmed window never starts with a
model-role turn, and the submitted payload always starts with a user-role
entry; in `handleStartDebate` only one leading model-role turn is stripped, so
its window avoids a leading model-role turn only when the suffix window does
not begin with two consecutive model-role turns. -/
theorem C1_window_leading_role :
    (∀ hist : List Message,
      (windowAI hist).head?.map Message.role ≠ some Role.model) ∧
    (∀ (topic : String) (hist : List Message),
      (historyForApiAI topic hist).head?.map ApiMsg.role = some Role.user) ∧
    (∀ hist : List Message,
      ((sliceLast HISTORY_WINDOW_SIZE hist).take 2).map Message.role ≠ [Role.model, Role.model] →
      (historyForApiStart hist).head?.map Message.role ≠ some Role.model) := by
  refine ⟨fun hist => dropWhileModel_head _, fun topic hist => ?_, fun hist h2 => ?_⟩
  · unfold historyForApiAI
    cases hw : (windowAI hist).map toApiMsg with
    | nil => rfl
    | cons e rest =>
      by_cases hr : e.role = Role.user
      · simp [hr]
      · simp [hr]
  · cases hw : sliceLast HISTORY_WINDOW_SIZE hist with
    | nil =>
      have heq : historyForApiStart hist = [] := by
        unfold historyForApiStart; rw [hw]
      simp [heq]
    | cons m rest =>
      have heq : historyForApiStart hist = if m.role = Role.model then rest else m :: rest := by
        unfold historyForApiStart; rw [hw]
      rw [hw] at h2
      rw [heq]
      by_cases hm : m.role = Role.model
      · rw [if_pos hm]
        cases rest with
        | nil => simp
        | cons r rt =>
          by_cases hr : r.role = Role.model
          · exact absurd (by simp [hm, hr]) h2
          · simp [hr]
      · simp [hm]

/-- C1 witness: the amended statement applied at concrete transcripts. -/
theorem C1_window_leading_role_witness :
    (windowAI [mTurn, uTurn]).head?.map Message.role ≠ some Role.model ∧
    (historyForApiAI "T" [mTurn, uTurn]).head?.map ApiMsg.role = some Role.user ∧
    (historyForApiStart [uTurn, mTurn]).head?.map Message.role ≠ some Role.model :=
  ⟨C1_window_leading_role.1 [mTurn, uTurn],
   C1_window_leading_role.2.1 "T" [mTurn, uTurn],
   C1_window_leading_role.2.2 [uTurn, mTurn] (by decide)⟩

/-- C1 counterexample: when the suffix window begins with two consecutive
model-role turns, the `handleStartDebate` window still starts with a
model-role turn, since only one leading model-role turn is stripped. -/
theorem C1_counterexample :
    (historyForApiStart [mTurn, mTurn, uTurn]).head?.map Message.role = some Role.model := by
  decide

/-- C9: a POST /debate request whose non-empty history begins with a
model-role entry is answered with HTTP 500 before any model call, regardless
of the other fields, so it never receives a 400 or a 200. -/
theorem C9_role_check_precedes_field_check :
    ∀ (body : DebateBody) (h : List ApiEntry) (e : ApiEntry) (op : Nat → Except String String),
      body.history = some h → h.head? = some e → e.role = Role.model →
      (debatePOST body op).resp.status = 500 ∧ (debatePOST body op).modelCalls = 0 ∧
      (debatePOST body op).chatSent = none := by
  intro body h e op hh he hr
  cases hsp : body.systemPrompt with
  | none => refine ⟨?_, ?_, ?_⟩ <;> simp [debatePOST, hsp, DebateResp.status]
  | some sp =>
    refine ⟨?_, ?_, ?_⟩ <;> simp [debatePOST, hsp, hh, he, hr, DebateResp.status]

/-- C9 witness: the theorem applied to a concrete request whose history starts
with a model-role entry. -/
theorem C9_role_check_precedes_field_check_witness :
    (debatePOST ⟨some "gemini-pro", some "prompt", some [⟨Role.model, [⟨"hi"⟩]⟩]⟩
        (fun _ => Except.ok "t")).resp.status = 500 ∧
    (debatePOST ⟨some "gemini-pro", some "prompt", some [⟨Role.model, [⟨"hi"⟩]⟩]⟩
        (fun _ => Except.ok "t")).modelCalls = 0 ∧
    (debatePOST ⟨some "gemini-pro", some "prompt", some [⟨Role.model, [⟨"hi"⟩]⟩]⟩
        (fun _ => Except.ok "t")).chatSent = none :=
  C9_role_check_precedes_field_check _ _ _ _ rfl rfl rfl

/-- C10: the message re-sent by the generation route is exactly the text of
the first part of the last history entry, the empty string for an empty
history (or an empty part list), and the full history is passed along
unchanged next to it; the guarded accesses make the computation total. -/
theorem C10_last_message_guarded :
    (lastMessageOf [] = "") ∧
    (∀ (h : List ApiEntry) (e : ApiEntry) (p : ApiPart),
      h.getLast? = some e → e.parts.head? = some p → lastMessageOf h = p.text) ∧
    (∀ (h : List ApiEntry) (e : ApiEntry),
      h.getLast? = some e → e.parts = [] → lastMessageOf h = "") ∧
    (∀ (mo sp : String) (h : List ApiEntry) (op : Nat → Except String String),
      mo ≠ "" → sp ≠ "" →
      (∀ e, h.head? = some e → e.role = Role.user) →
      (debatePOST ⟨some mo, some sp, some h⟩ op).chatSent = some (h, lastMessageOf h)) := by
  refine ⟨rfl, fun h e p hl hp => ?_, fun h e hl hp => ?_, fun mo sp h op hmo hsp hrole => ?_⟩
  · unfold lastMessageOf
    rw [hl]
    simp [hp]
  · unfold lastMessageOf
    rw [hl]
    simp [hp]
  · have hfal : falsyStr (some mo) = false := by
      simp [falsyStr, isEmpty_false_of_ne hmo]
    have hspe : sp.isEmpty = false := isEmpty_false_of_ne hsp
    cases hh : h.head? with
    | none =>
      simp [debatePOST, hh, debateWithHistory, hfal, hspe]
    | some e0 =>
      have hu : e0.role = Role.user := hrole e0 hh
      simp [debatePOST, hh, hu, debateWithHistory, hfal, hspe]

/-- C10 witness: the theorem applied at concrete histories. -/
theorem C10_last_message_guarded_witness :
    lastMessageOf [⟨Role.user, [⟨"q1"⟩]⟩, ⟨Role.model, [⟨"a1"⟩, ⟨"a2"⟩]⟩] = "a1" ∧
    lastMessageOf [⟨Role.user, []⟩] = "" ∧
    (debatePOST ⟨some "gemini-pro", some "prompt", some [⟨Role.user, [⟨"q1"⟩]⟩]⟩
        (fun _ => Except.ok "t")).chatSent =
      some ([⟨Role.user, [⟨"q1"⟩]⟩], lastMessageOf [⟨Role.user, [⟨"q1"⟩]⟩]) :=
  ⟨C10_last_message_guarded.2.1 _ _ _ rfl rfl,
   C10_last_message_guarded.2.2.1 _ ⟨Role.user, []⟩ rfl rfl,
   C10_last_message_guarded.2.2.2 "gemini-pro" "prompt" _ _ (by decide) (by decide)
     (by intro e he; cases he; rfl)⟩

/-- C5 (amended): a request missing only `model` (with `systemPrompt` and
`history` present and the history empty or starting with a user-role entry)
gets 400 with the missing-fields message and no model call; but a request
missing `systemPrompt` or `history` raises a TypeError in the debug logging
that runs before the field check, so it gets 500 (with no model call) rather
than 400. -/
theorem C5_missing_fields :
    (∀ (body : DebateBody) (sp : String) (h : List ApiEntry) (op : Nat → Except String String),
      body.systemPrompt = some sp → body.history = some h →
      (∀ e, h.head? = some e → e.role = Role.user) →
      (falsyStr body.model || sp.isEmpty) = true →
      (debatePOST body op).resp = DebateResp.badRequest missingFieldsMsg ∧
      (debatePOST body op).modelCalls = 0) ∧
    (∀ (body : DebateBody) (op : Nat → Except String String),
      body.systemPrompt = none →
      (debatePOST body op).resp = DebateResp.serverError failedMsg substrTypeError ∧
      (debatePOST body op).modelCalls = 0) ∧
    (∀ (body : DebateBody) (sp : String) (op : Nat → Except String String),
      body.systemPrompt = some sp → body.history = none →
      (debatePOST body op).resp = DebateResp.serverError failedMsg lengthTypeError ∧
      (debatePOST body op).modelCalls = 0) := by
  refine ⟨fun body sp h op hsp hh hrole hfal => ?_, fun body op hsp => ?_,
    fun body sp op hsp hh => ?_⟩
  · cases hhd : h.head? with
    | none =>
      refine ⟨?_, ?_⟩ <;> simp [debatePOST, hsp, hh, hhd, debateWithHistory, hfal]
    | some e0 =>
      have hu : e0.role = Role.user := hrole e0 hhd
      refine ⟨?_, ?_⟩ <;> simp [debatePOST, hsp, hh, hhd, hu, debateWithHistory, hfal]
  · refine ⟨?_, ?_⟩ <;> simp [debatePOST, hsp]
  · refine ⟨?_, ?_⟩ <;> simp [debatePOST, hsp, hh]

/-- C5 witness: the amended statement applied at concrete bodies. -/
theorem C5_missing_fields_witness :
    ((debatePOST ⟨none, some "prompt", some []⟩ (fun _ => Except.ok "t")).resp =
        DebateResp.badRequest missingFieldsMsg ∧
      (debatePOST ⟨none, some "prompt", some []⟩ (fun _ => Except.ok "t")).modelCalls = 0) ∧
    ((debatePOST ⟨some "gemini-pro", none, some []⟩ (fun _ => Except.ok "t")).resp =
        DebateResp.serverError failedMsg substrTypeError ∧
      (debatePOST ⟨some "gemini-pro", none, some []⟩ (fun _ => Except.ok "t")).modelCalls = 0) ∧
    ((debatePOST ⟨some "gemini-pro", some "prompt", none⟩ (fun _ => Except.ok "t")).resp =
        DebateResp.serverError failedMsg lengthTypeError ∧
      (debatePOST ⟨some "gemini-pro", some "prompt", none⟩ (fun _ => Except.ok "t")).modelCalls = 0) :=
  ⟨C5_missing_fields.1 _ "prompt" [] _ rfl rfl (by intro e he; cases he) (by decide),
   C5_missing_fields.2.1 _ _ rfl,
   C5_missing_fields.2.2 _ "prompt" _ rfl rfl⟩

/-- C5 counterexample: a request missing `systemPrompt` (model and history
present) is answered with HTTP 500, not 400: the claimed uniform 400 response
for any missing required field fails. -/
theorem C5_counterexample :
    (debatePOST ⟨some "gemini-pro", none, some []⟩ (fun _ => Except.ok "t")).resp.status = 500 ∧
    (debatePOST ⟨some "gemini-pro", none, some []⟩ (fun _ => Except.ok "t")).resp.status ≠ 400 := by
  decide

/-- Success case of the generation retry loop, generalized over the starting
attempt index: `k` retryable failures followed by a success yield a 200
response with `retries = i + k` after `k + 1` calls. -/
theorem sendLoop_success (op : Nat → Except String String) (t : String) :
    ∀ (k b i : Nat) (lastErr : Option String), k < b →
      (∀ j, j < k → ∃ m, op (i + j) = Except.error m ∧ strIncludes m "403" = true) →
      op (i + k) = Except.ok t →
      sendLoop op b i lastErr = (DebateResp.ok t (i + k), k + 1)
  | 0, b + 1, i, lastErr, _, _, hok => by
      rw [Nat.add_zero] at hok
      simp only [sendLoop, hok, Nat.add_zero]
  | k + 1, b + 1, i, lastErr, hb, hfail, hok => by
      obtain ⟨m, hm, h403⟩ := hfail 0 (Nat.succ_pos k)
      rw [Nat.add_zero] at hm
      simp only [sendLoop, hm, h403, if_true]
      have hfail' : ∀ j, j < k →
          ∃ m2, op ((i + 1) + j) = Except.error m2 ∧ strIncludes m2 "403" = true := by
        intro j hj
        have hx := hfail (j + 1) (by omega)
        rwa [show i + (j + 1) = (i + 1) + j by omega] at hx
      have hok' : op ((i + 1) + k) = Except.ok t := by
        rwa [show i + (k + 1) = (i + 1) + k by omega] at hok
      rw [sendLoop_success op t k b (i + 1) (some m) (by omega) hfail' hok']
      have he : (i + 1) + k = i + (k + 1) := by omega
      rw [he]

/-- Exhaustion case of the generation retry loop, generalized over the
starting attempt index: a full budget of retryable failures yields the
exhaustion error carrying the last failure's message, after exactly `b`
calls. -/
theorem sendLoop_exhaust (op : Nat → Except String String) (e : Nat → String) :
    ∀ (b i : Nat) (lastErr : Option String),
      (∀ j, j < b → op (i + j) = Except.error (e (i + j)) ∧
        strIncludes (e (i + j)) "403" = true) →
      sendLoop op b i lastErr =
        (DebateResp.serverError failedMsg
          (exhaustDetails (if b = 0 then lastErr else some (e (i + b - 1)))), b)
  | 0, i, lastErr, _ => by simp [sendLoop]
  | b + 1, i, lastErr, hfail => by
      obtain ⟨hm, h403⟩ := hfail 0 (Nat.succ_pos b)
      rw [Nat.add_zero] at hm h403
      simp only [sendLoop, hm, h403, if_true]
      have hfail' : ∀ j, j < b → op ((i + 1) + j) = Except.error (e ((i + 1) + j)) ∧
          strIncludes (e ((i + 1) + j)) "403" = true := by
        intro j hj
        have hx := hfail (j + 1) (by omega)
        rwa [show i + (j + 1) = (i + 1) + j by omega] at hx
      rw [sendLoop_exhaust op e b (i + 1) (some (e i)) hfail']
      cases b with
      | zero => simp
      | succ b2 =>
        have he : (i + 1) + (b2 + 1) - 1 = i + (b2 + 1 + 1) - 1 := by omega
        simp [he]

/-- Fatal case of the generation retry loop, generalized over the starting
attempt index: a non-retryable failure at relative attempt `j` stops the loop
at `j + 1` calls and surfaces that failure's message. -/
theorem sendLoop_fatal (op : Nat → Except String String) (m : String) :
    ∀ (j b i : Nat) (lastErr : Option String), j < b →
      (∀ l, l < j → ∃ m2, op (i + l) = Except.error m2 ∧ strIncludes m2 "403" = true) →
      op (i + j) = Except.error m → strIncludes m "403" = false →
      sendLoop op b i lastErr = (DebateResp.serverError failedMsg m, j + 1)
  | 0, b + 1, i, lastErr, _, _, herr, h403 => by
      rw [Nat.add_zero] at herr
      simp only [sendLoop, herr, h403, Bool.false_eq_true, if_false]
  | j + 1, b + 1, i, lastErr, hb, hfail, herr, h403 => by
      obtain ⟨m2, hm2, h4032⟩ := hfail 0 (Nat.succ_pos j)
      rw [Nat.add_zero] at hm2
      simp only [sendLoop, hm2, h4032, if_true]
      have hfail' : ∀ l, l < j →
          ∃ m3, op ((i + 1) + l) = Except.error m3 ∧ strIncludes m3 "403" = true := by
        intro l hl
        have hx := hfail (l + 1) (by omega)
        rwa [show i + (l + 1) = (i + 1) + l by omega] at hx
      have herr' : op ((i + 1) + j) = Except.error m := by
        rwa [show i + (j + 1) = (i + 1) + j by omega] at herr
      rw [sendLoop_fatal op m j b (i + 1) (some m2) (by omega) hfail' herr' h403]

/-- C2: in the generation retry loop with budget `MAX_RETRIES`, `k` retryable
(403) failures followed by a success give the 200 response with
`retries = k` after `k + 1` calls; a full budget of retryable failures makes
exactly `MAX_RETRIES` calls and returns the error response whose details
carry the last failure's message. -/
theorem C2_generation_retry :
    (∀ (op : Nat → Except String String) (k : Nat) (t : String),
      k < MAX_RETRIES →
      (∀ j, j < k → ∃ m, op j = Except.error m ∧ strIncludes m "403" = true) →
      op k = Except.ok t →
      sendLoop op MAX_RETRIES 0 none = (DebateResp.ok t k, k + 1)) ∧
    (∀ (op : Nat → Except String String) (e : Nat → String),
      (∀ j, j < MAX_RETRIES → op j = Except.error (e j) ∧ strIncludes (e j) "403" = true) →
      sendLoop op MAX_RETRIES 0 none =
        (DebateResp.serverError failedMsg
          ("Failed after 500 retries. Last error: " ++ e (MAX_RETRIES - 1)), MAX_RETRIES)) := by
  constructor
  · intro op k t hk hfail hok
    have hx := sendLoop_success op t k MAX_RETRIES 0 none hk
      (by intro j hj; simpa using hfail j hj) (by simpa using hok)
    simpa using hx
  · intro op e hfail
    have hx := sendLoop_exhaust op e MAX_RETRIES 0 none
      (by intro j hj; simpa using hfail j hj)
    simpa [MAX_RETRIES, exhaustDetails] using hx

/-- C2 witness: the theorem applied to a call that fails twice with 403 then
succeeds, and to a call that fails with 403 on every attempt. -/
theorem C2_generation_retry_witness :
    sendLoop (fun n => if n < 2 then Except.error "HTTP 403" else Except.ok "hi")
        MAX_RETRIES 0 none = (DebateResp.ok "hi" 2, 3) ∧
    sendLoop (fun _ => Except.error "quota 403") MAX_RETRIES 0 none =
      (DebateResp.serverError failedMsg
        ("Failed after 500 retries. Last error: " ++ "quota 403"), MAX_RETRIES) :=
  ⟨C2_generation_retry.1 _ 2 "hi" (by decide)
      (fun j hj => ⟨"HTTP 403", by simp [hj], by decide⟩) (by simp),
   C2_generation_retry.2 _ (fun _ => "quota 403")
     (fun j _ => ⟨rfl, by show strIncludes "quota 403" "403" = true; decide⟩)⟩

/-- C4: in the generation retry loop only an error whose message contains
"403" is retried; the first failure without "403" is fatal immediately: the
call made for it is the last one (`j + 1` calls in total) and the route
answers 500 with that failure's message as details. -/
theorem C4_generation_fatal_on_non403 :
    ∀ (op : Nat → Except String String) (j : Nat) (m : String),
      j < MAX_RETRIES →
      (∀ l, l < j → ∃ m2, op l = Except.error m2 ∧ strIncludes m2 "403" = true) →
      op j = Except.error m → strIncludes m "403" = false →
      sendLoop op MAX_RETRIES 0 none = (DebateResp.serverError failedMsg m, j + 1) := by
  intro op j m hj hfail herr h403
  have hx := sendLoop_fatal op m j MAX_RETRIES 0 none hj
    (by intro l hl; simpa using hfail l hl) (by simpa using herr) h403
  simpa using hx

/-- C4 witness: the theorem applied to a call that fails once with 403 and
then with a permanent error. -/
theorem C4_generation_fatal_on_non403_witness :
    sendLoop (fun n => if n = 0 then Except.error "quota 403" else Except.error "boom")
        MAX_RETRIES 0 none = (DebateResp.serverError failedMsg "boom", 2) :=
  C4_generation_fatal_on_non403 _ 1 "boom" (by decide)
    (fun l hl => ⟨"quota 403", by simp [Nat.lt_one_iff.mp hl], by decide⟩)
    (by simp) (by decide)

/-- Any failing fetch outcome makes the models loop recurse with one more
call counted, for some recorded error message. -/
theorem modelsLoop_step_failure (fetch : Nat → FetchResult) (b i : Nat)
    (lastErr : Option String) (h : (fetch i).isFailure = true) :
    ∃ m, modelsLoop fetch (b + 1) i lastErr =
      ((modelsLoop fetch b (i + 1) (some m)).1, (modelsLoop fetch b (i + 1) (some m)).2 + 1) := by
  cases hfe : fetch i with
  | ok ms => rw [hfe] at h; simp [FetchResult.isFailure] at h
  | okMalformed m => exact ⟨m, by simp [modelsLoop, hfe]⟩
  | rateLimited =>
    exact ⟨"Attempt " ++ toString (i + 1) ++ " failed with 403 Forbidden",
      by simp [modelsLoop, hfe]⟩
  | otherStatus st body =>
    exact ⟨"API request failed with status " ++ toString st ++ ": " ++ body,
      by simp [modelsLoop, hfe]⟩
  | netError m => exact ⟨m, by simp [modelsLoop, hfe]⟩

/-- With every fetch failing, the models loop consumes its whole budget and
ends in the 500 exhaustion response. -/
theorem modelsLoop_all_failures (fetch : Nat → FetchResult)
    (hf : ∀ i, (fetch i).isFailure = true) :
    ∀ (b i : Nat) (lastErr : Option String),
      (modelsLoop fetch b i lastErr).2 = b ∧
      ∃ d, (modelsLoop fetch b i lastErr).1 = ModelsResp.failed d
  | 0, i, lastErr => ⟨rfl, ⟨lastErr.getD "An unknown error occurred", rfl⟩⟩
  | b + 1, i, lastErr => by
      obtain ⟨m, hstep⟩ := modelsLoop_step_failure fetch b i lastErr (hf i)
      have ih := modelsLoop_all_failures fetch hf b (i + 1) (some m)
      rw [hstep]
      exact ⟨by simp [ih.1], ih.2⟩

/-- A first parsed-OK fetch at relative attempt `j`, after `j` failures of any
kind, makes the loop stop at exactly `j + 1` calls. -/
theorem modelsLoop_success_calls (fetch : Nat → FetchResult) (ms : List GeminiModel) :
    ∀ (j b i : Nat) (lastErr : Option String), j < b →
      (∀ l, l < j → (fetch (i + l)).isFailure = true) →
      fetch (i + j) = FetchResult.ok ms →
      (modelsLoop fetch b i lastErr).2 = j + 1
  | 0, b + 1, i, lastErr, _, _, hok => by
      rw [Nat.add_zero] at hok
      simp only [modelsLoop, hok]
      split <;> rfl
  | j + 1, b + 1, i, lastErr, hb, hfail, hok => by
      have h0 : (fetch i).isFailure = true := by
        have hx := hfail 0 (Nat.succ_pos j)
        rwa [Nat.add_zero] at hx
      obtain ⟨m, hstep⟩ := modelsLoop_step_failure fetch b i lastErr h0
      rw [hstep]
      have hfail' : ∀ l, l < j → (fetch ((i + 1) + l)).isFailure = true := by
        intro l hl
        have hx := hfail (l + 1) (by omega)
        rwa [show i + (l + 1) = (i + 1) + l by omega] at hx
      have hok' : fetch ((i + 1) + j) = FetchResult.ok ms := by
        rwa [show i + (j + 1) = (i + 1) + j by omega] at hok
      simp [modelsLoop_success_calls fetch ms j b (i + 1) (some m) (by omega) hfail' hok']

/-- C3 (amended): the models route retries every failure outcome alike —
RateLimited (403), Transient (network error) and Permanent (other non-ok
status or malformed payload): with all attempts failing (in any mix) the
fetch is performed the full `MAX_RETRIES` times before a 500 exhaustion
response, and a first parsed-OK response after `j` failures of any kind is
reached on call `j + 1`. -/
theorem C3_models_all_failures_retried :
    (∀ fetch : Nat → FetchResult,
      (∀ i, (fetch i).isFailure = true) →
      (modelsGET fetch).2 = MAX_RETRIES ∧
      ∃ d, (modelsGET fetch).1 = ModelsResp.failed d) ∧
    (∀ (fetch : Nat → FetchResult) (j : Nat) (ms : List GeminiModel),
      j < MAX_RETRIES →
      (∀ l, l < j → (fetch l).isFailure = true) →
      fetch j = FetchResult.ok ms →
      (modelsGET fetch).2 = j + 1) := by
  constructor
  · intro fetch hf
    exact modelsLoop_all_failures fetch hf MAX_RETRIES 0 none
  · intro fetch j ms hj hfail hok
    exact modelsLoop_success_calls fetch ms j MAX_RETRIES 0 none hj
      (by intro l hl; simpa using hfail l hl) (by simpa using hok)

/-- C3 witness: the amended statement applied to an all-transient run and to
a run in which a Permanent failure precedes the success. -/
theorem C3_models_all_failures_retried_witness :
    ((modelsGET (fun _ => FetchResult.netError "connection reset")).2 = MAX_RETRIES ∧
      ∃ d, (modelsGET (fun _ => FetchResult.netError "connection reset")).1 =
        ModelsResp.failed d) ∧
    (modelsGET (fun n => if n = 0 then FetchResult.otherStatus 500 "internal" else
        FetchResult.ok [])).2 = 2 :=
  ⟨C3_models_all_failures_retried.1 _ (fun _ => rfl),
   C3_models_all_failures_retried.2 _ 1 [] (by decide)
     (fun l hl => by simp [Nat.lt_one_iff.mp hl, FetchResult.isFailure]) (by simp)⟩

/-- C3 counterexample: a Permanent failure (non-ok, non-403 status) on every
attempt is retried until the budget of 500 attempts is exhausted, not
propagated after a single attempt as claimed. -/
theorem C3_counterexample :
    (modelsGET (fun _ => FetchResult.otherStatus 500 "internal error")).2 = 500 ∧
    (modelsGET (fun _ => FetchResult.otherStatus 500 "internal error")).2 ≠ 1 := by
  have hx := modelsLoop_all_failures (fun _ => FetchResult.otherStatus 500 "internal error")
    (fun _ => rfl) MAX_RETRIES 0 none
  exact ⟨hx.1, by rw [show (modelsGET (fun _ => FetchResult.otherStatus 500 "internal error")).2
    = MAX_RETRIES from hx.1]; decide⟩

/-- Totality of the code-point order on character lists. -/
theorem charListLe_total : ∀ xs ys : List Char, charListLe xs ys = true ∨ charListLe ys xs = true
  | [], _ => Or.inl rfl
  | _ :: _, [] => Or.inr rfl
  | x :: xs, y :: ys => by
    rcases Nat.lt_trichotomy x.toNat y.toNat with h | h | h
    · left; simp [charListLe, h]
    · have h1 : ¬ x.toNat < y.toNat := by omega
      have h2 : ¬ y.toNat < x.toNat := by omega
      rcases charListLe_total xs ys with hc | hc
      · left; simp [charListLe, h1, h2, hc]
      · right; simp [charListLe, h1, h2, hc]
    · right; simp [charListLe, h]

/-- Transitivity of the code-point order on character lists. -/
theorem charListLe_trans : ∀ xs ys zs : List Char,
    charListLe xs ys = true → charListLe ys zs = true → charListLe xs zs = true
  | [], _, _, _, _ => rfl
  | _ :: _, [], _, h1, _ => by simp [charListLe] at h1
  | _ :: _, _ :: _, [], _, h2 => by simp [charListLe] at h2
  | x :: xs, y :: ys, z :: zs, h1, h2 => by
    simp only [charListLe] at h1 h2 ⊢
    by_cases hxy : x.toNat < y.toNat
    · by_cases hyz : y.toNat < z.toNat
      · have hxz : x.toNat < z.toNat := by omega
        simp [hxz]
      · by_cases hzy : z.toNat < y.toNat
        · simp [hyz, hzy] at h2
        · have hxz : x.toNat < z.toNat := by omega
          simp [hxz]
    · by_cases hyx : y.toNat < x.toNat
      · simp [hxy, hyx] at h1
      · by_cases hyz : y.toNat < z.toNat
        · have hxz : x.toNat < z.toNat := by omega
          simp [hxz]
        · by_cases hzy : z.toNat < y.toNat
          · simp [hyz, hzy] at h2
          · have hxz : ¬ x.toNat < z.toNat := by omega
            have hzx : ¬ z.toNat < x.toNat := by omega
            have h1x : charListLe xs ys = true := by simpa [hxy, hyx] using h1
            have h2x : charListLe ys zs = true := by simpa [hyz, hzy] using h2
            simpa [hxz, hzx] using charListLe_trans xs ys zs h1x h2x

instance : IsTotal ModelEntry entryGe where
  total a b := charListLe_total b.id.data a.id.data

instance : IsTrans ModelEntry entryGe where
  trans a b c hab hbc := charListLe_trans c.id.data b.id.data a.id.data hbc hab

/-- C8: on a parsed-OK first fetch, the models route answers 404 with the
fixed body when no catalog entry supports generateContent, and otherwise a
200 response with `retries = 0` whose list is a permutation of the mapped
compatible entries, sorted by id descending under string comparison. -/
theorem C8_models_listing :
    ∀ ms : List GeminiModel,
      (filteredModelsOf ms = [] →
        modelsGET (fun _ => FetchResult.ok ms) = (ModelsResp.noModels, 1) ∧
        ModelsResp.noModels.status = 404 ∧
        ModelsResp.noModels.errorBody = some "No compatible models available") ∧
      (filteredModelsOf ms ≠ [] →
        modelsGET (fun _ => FetchResult.ok ms) = (ModelsResp.ok (filteredModelsOf ms) 0, 1) ∧
        (filteredModelsOf ms).Perm
          ((ms.filter (fun m => m.supportedGenerationMethods.contains "generateContent")).map
            (fun m => ⟨trailingSegment m.name, m.displayName⟩)) ∧
        List.Sorted entryGe (filteredModelsOf ms)) := by
  intro ms
  constructor
  · intro hempty
    refine ⟨?_, rfl, rfl⟩
    unfold modelsGET
    rw [show MAX_RETRIES = 499 + 1 from rfl]
    simp only [modelsLoop]
    simp [hempty]
  · intro hne
    have hfe : (filteredModelsOf ms).isEmpty = false := by
      cases hfl : filteredModelsOf ms with
      | nil => exact absurd hfl hne
      | cons e es => rfl
    refine ⟨?_, List.perm_insertionSort entryGe _, List.sorted_insertionSort entryGe _⟩
    unfold modelsGET
    rw [show MAX_RETRIES = 499 + 1 from rfl]
    simp only [modelsLoop]
    simp [hfe]

/-- C8 witness: the theorem applied to a catalog with no compatible entry and
to a two-entry compatible catalog, whose result is sorted by id descending. -/
theorem C8_models_listing_witness :
    modelsGET (fun _ => FetchResult.ok [⟨"models/chat-x", "Chat X", "", ["embedText"]⟩]) =
      (ModelsResp.noModels, 1) ∧
    modelsGET (fun _ => FetchResult.ok
        [⟨"models/gemini-a", "Gemini A", "", ["generateContent"]⟩,
         ⟨"models/gemini-b", "Gemini B", "", ["generateContent"]⟩]) =
      (ModelsResp.ok (filteredModelsOf
        [⟨"models/gemini-a", "Gemini A", "", ["generateContent"]⟩,
         ⟨"models/gemini-b", "Gemini B", "", ["generateContent"]⟩]) 0, 1) ∧
    List.Sorted entryGe (filteredModelsOf
        [⟨"models/gemini-a", "Gemini A", "", ["generateContent"]⟩,
         ⟨"models/gemini-b", "Gemini B", "", ["generateContent"]⟩]) :=
  ⟨((C8_models_listing _).1 (by decide)).1,
   ((C8_models_listing _).2 (by decide)).1,
   ((C8_models_listing _).2 (by decide)).2.2⟩

/-- Unfolding of one loop iteration when the stop flag is observed. -/
theorem runLoop_cancel_step (topic : String) (cancel : Nat → Bool)
    (gen : Nat → Except String String) (b i : Nat) (hist : List Message)
    (h : cancel i = true) :
    runLoop topic cancel gen (b + 1) i hist = ⟨[], hist, some cancelNotice⟩ := by
  simp [runLoop, h]

/-- Unfolding of one loop iteration on a failed generation call. -/
theorem runLoop_error_step (topic : String) (cancel : Nat → Bool)
    (gen : Nat → Except String String) (b i : Nat) (hist : List Message) (m : String)
    (h : cancel i = false) (hg : gen i = Except.error m) :
    runLoop topic cancel gen (b + 1) i hist =
      ⟨[⟨i, agentAt i, historyForApiAI topic hist⟩], hist, some m⟩ := by
  simp [runLoop, h, hg]

/-- Unfolding of one loop iteration on a successful generation call. -/
theorem runLoop_ok_step (topic : String) (cancel : Nat → Bool)
    (gen : Nat → Except String String) (b i : Nat) (hist : List Message) (t : String)
    (h : cancel i = false) (hg : gen i = Except.ok t) :
    runLoop topic cancel gen (b + 1) i hist =
      ⟨⟨i, agentAt i, historyForApiAI topic hist⟩ ::
          (runLoop topic cancel gen b (i + 1) (nextHist t i hist)).calls,
        (runLoop topic cancel gen b (i + 1) (nextHist t i hist)).history,
        (runLoop topic cancel gen b (i + 1) (nextHist t i hist)).banner⟩ := by
  simp [runLoop, h, hg]

/-- The appended iteration transcript is two turns longer. -/
theorem nextHist_length (t : String) (i : Nat) (hist : List Message) :
    (nextHist t i hist).length = hist.length + 2 := by
  simp [nextHist]

/-- With the stop flag never set and every generation call succeeding, the
two-agent loop runs its whole budget: one call per iteration with consecutive
turn indices, the agent selected by parity, two transcript turns appended per
iteration, and no banner. -/
theorem runLoop_all_ok (topic : String) (gen : Nat → Except String String)
    (hgen : ∀ n, ∃ t, gen n = Except.ok t) :
    ∀ (b i : Nat) (hist : List Message),
      (runLoop topic (fun _ => false) gen b i hist).calls.map GenCall.turnIndex =
        List.range' i b ∧
      (runLoop topic (fun _ => false) gen b i hist).calls.map GenCall.agent =
        (List.range' i b).map agentAt ∧
      (runLoop topic (fun _ => false) gen b i hist).history.length = hist.length + 2 * b ∧
      (runLoop topic (fun _ => false) gen b i hist).banner = none
  | 0, i, hist => ⟨rfl, rfl, by simp [runLoop], rfl⟩
  | b + 1, i, hist => by
      obtain ⟨t, ht⟩ := hgen i
      have ih := runLoop_all_ok topic gen hgen b (i + 1) (nextHist t i hist)
      rw [runLoop_ok_step topic (fun _ => false) gen b i hist t rfl ht]
      refine ⟨?_, ?_, ?_, ih.2.2.2⟩
      · simp only [List.map_cons, ih.1, List.range'_succ i b 1]
      · simp only [List.map_cons, ih.2.1, List.range'_succ i b 1, List.map]
      · simp only [List.length_cons]
        rw [ih.2.2.1, nextHist_length]
        omega

/-- Every call issued by the loop under a stop flag raised from iteration `c`
onward has a turn index below `c`. -/
theorem runLoop_cancel_calls_lt (topic : String) (gen : Nat → Except String String) (c : Nat) :
    ∀ (b i : Nat) (hist : List Message) (call : GenCall),
      call ∈ (runLoop topic (fun n => decide (c ≤ n)) gen b i hist).calls →
      call.turnIndex < c
  | 0, i, hist, call, hmem => absurd hmem (by simp [runLoop])
  | b + 1, i, hist, call, hmem => by
      by_cases hci : c ≤ i
      · rw [runLoop_cancel_step topic _ gen b i hist (decide_eq_true hci)] at hmem
        exact absurd hmem (by simp)
      · have hic : i < c := by omega
        have hcf : decide (c ≤ i) = false := decide_eq_false hci
        cases hg : gen i with
        | error m =>
          rw [runLoop_error_step topic _ gen b i hist m hcf hg] at hmem
          have he : call = ⟨i, agentAt i, historyForApiAI topic hist⟩ := by simpa using hmem
          rw [he]
          exact hic
        | ok t =>
          rw [runLoop_ok_step topic _ gen b i hist t hcf hg] at hmem
          rcases List.mem_cons.mp hmem with hhd | htl
          · rw [hhd]; exact hic
          · exact runLoop_cancel_calls_lt topic gen c b (i + 1) (nextHist t i hist) call htl

/-- With all generation calls succeeding and the stop flag raised from
iteration `c` (with `i ≤ c` still ahead and `c` inside the remaining budget),
the loop completes exactly `c - i` iterations, appends two turns per completed
iteration and nothing else, and sets the cancellation banner. -/
theorem runLoop_cancel_mid (topic : String) (gen : Nat → Except String String)
    (hgen : ∀ n, ∃ t, gen n = Except.ok t) (c : Nat) :
    ∀ (b i : Nat) (hist : List Message), i ≤ c → c < i + b →
      (runLoop topic (fun n => decide (c ≤ n)) gen b i hist).calls.length = c - i ∧
      (runLoop topic (fun n => decide (c ≤ n)) gen b i hist).history.length =
        hist.length + 2 * (c - i) ∧
      (runLoop topic (fun n => decide (c ≤ n)) gen b i hist).banner = some cancelNotice
  | 0, i, hist, hle, hlt => absurd hle (by omega)
  | b + 1, i, hist, hle, hlt => by
      by_cases hci : c ≤ i
      · have hei : c = i := by omega
        rw [runLoop_cancel_step topic _ gen b i hist (decide_eq_true hci)]
        refine ⟨by simp [hei], by simp [hei], rfl⟩
      · have hic : i < c := by omega
        have hcf : decide (c ≤ i) = false := decide_eq_false hci
        obtain ⟨t, ht⟩ := hgen i
        have ih := runLoop_cancel_mid topic gen hgen c b (i + 1) (nextHist t i hist)
          (by omega) (by omega)
        rw [runLoop_ok_step topic _ gen b i hist t hcf ht]
        refine ⟨?_, ?_, ih.2.2⟩
        · simp only [List.length_cons, ih.1]
          omega
        · rw [ih.2.1, nextHist_length]
          omega

/-- C6 (amended): in two-agent mode with no error and no cancellation the
loop issues exactly `2 × maxTurns` generation calls, with turn indices
`0, 1, ...` in order and AI 1 acting on every even index and AI 2 on every
odd index; for `maxTurns = 0` zero calls are issued and the judging phase
does NOT run, because the transcript then holds only the single seed turn
and judging requires more than one transcript entry. -/
theorem C6_two_agent_schedule :
    ∀ (topic : String) (gen : Nat → Except String String) (maxTurns : Nat),
      (∀ n, ∃ t, gen n = Except.ok t) →
      (runAIDebate topic (fun _ => false) gen maxTurns (seedFor topic)).calls.length =
        2 * maxTurns ∧
      (runAIDebate topic (fun _ => false) gen maxTurns (seedFor topic)).calls.map
        GenCall.turnIndex = List.range (2 * maxTurns) ∧
      (runAIDebate topic (fun _ => false) gen maxTurns (seedFor topic)).calls.map
        GenCall.agent = (List.range (2 * maxTurns)).map agentAt ∧
      (maxTurns = 0 →
        (runAIDebate topic (fun _ => false) gen maxTurns (seedFor topic)).calls = [] ∧
        (runAIDebate topic (fun _ => false) gen maxTurns (seedFor topic)).judged = false) := by
  intro topic gen maxTurns hgen
  have hx := runLoop_all_ok topic gen hgen (2 * maxTurns) 0 (seedFor topic)
  refine ⟨?_, ?_, ?_, ?_⟩
  · have hlen := congrArg List.length hx.1
    simpa [runAIDebate] using hlen
  · simpa [runAIDebate, List.range_eq_range'] using hx.1
  · simpa [runAIDebate, List.range_eq_range'] using hx.2.1
  · intro h0
    subst h0
    exact ⟨rfl, rfl⟩

/-- C6 witness: the amended statement applied to a 1-turn-per-side run (AI 1
then AI 2) and to a 0-turn run (no calls, no judging). -/
theorem C6_two_agent_schedule_witness :
    (runAIDebate "T" (fun _ => false) (fun _ => Except.ok "x") 1 (seedFor "T")).calls.map
      GenCall.agent = [Sender.ai1, Sender.ai2] ∧
    (runAIDebate "T" (fun _ => false) (fun _ => Except.ok "x") 0 (seedFor "T")).calls = [] ∧
    (runAIDebate "T" (fun _ => false) (fun _ => Except.ok "x") 0 (seedFor "T")).judged = false :=
  ⟨by
    have hx := (C6_two_agent_schedule "T" (fun _ => Except.ok "x") 1 (fun _ => ⟨"x", rfl⟩)).2.2.1
    rw [hx]; decide,
   ((C6_two_agent_schedule "T" (fun _ => Except.ok "x") 0 (fun _ => ⟨"x", rfl⟩)).2.2.2 rfl).1,
   ((C6_two_agent_schedule "T" (fun _ => Except.ok "x") 0 (fun _ => ⟨"x", rfl⟩)).2.2.2 rfl).2⟩

/-- C6 counterexample: with `maxTurnsPerSide = 0` the code does not proceed
to judging: zero generation calls are made, but the judging guard
(`history.length > 1`) fails on the lone seed turn, so no judging phase runs,
contrary to the claimed hand-off to judging. -/
theorem C6_counterexample :
    (runAIDebate "Topic" (fun _ => false) (fun _ => Except.ok "x") 0 (seedFor "Topic")).calls
      = [] ∧
    (runAIDebate "Topic" (fun _ => false) (fun _ => Except.ok "x") 0 (seedFor "Topic")).judged
      = false :=
  ⟨rfl, rfl⟩

/-- C7 (amended): once the stop flag is set (observed at the start of
iteration `c`), no generation call with turn index `≥ c` is ever issued; the
cancellation is surfaced through the dismissible error banner, NOT as a
transcript turn — the transcript keeps exactly the seed plus the two turns of
each completed iteration — and the judging phase still runs exactly when at
least one response turn exists beyond the single seed turn. -/
theorem C7_cancellation_checkpoint :
    ∀ (topic : String) (gen : Nat → Except String String) (maxTurns c : Nat),
      (∀ n, ∃ t, gen n = Except.ok t) →
      (∀ call ∈ (runAIDebate topic (fun n => decide (c ≤ n)) gen maxTurns
          (seedFor topic)).calls, call.turnIndex < c) ∧
      (c < 2 * maxTurns →
        (runAIDebate topic (fun n => decide (c ≤ n)) gen maxTurns
          (seedFor topic)).calls.length = c ∧
        (runAIDebate topic (fun n => decide (c ≤ n)) gen maxTurns
          (seedFor topic)).history.length = 1 + 2 * c ∧
        (runAIDebate topic (fun n => decide (c ≤ n)) gen maxTurns
          (seedFor topic)).banner = some cancelNotice ∧
        ((runAIDebate topic (fun n => decide (c ≤ n)) gen maxTurns
          (seedFor topic)).judged = true ↔ 1 ≤ c)) := by
  intro topic gen maxTurns c hgen
  constructor
  · intro call hmem
    exact runLoop_cancel_calls_lt topic gen c (2 * maxTurns) 0 (seedFor topic) call
      (by simpa [runAIDebate] using hmem)
  · intro hc
    have hx := runLoop_cancel_mid topic gen hgen c (2 * maxTurns) 0 (seedFor topic)
      (Nat.zero_le c) (by omega)
    have hsl : (seedFor topic).length = 1 := rfl
    have hh := hx.2.1
    rw [hsl, Nat.sub_zero] at hh
    refine ⟨by simpa [runAIDebate] using hx.1, by simpa [runAIDebate] using hh,
      by simpa [runAIDebate] using hx.2.2, ?_⟩
    simp only [runAIDebate]
    rw [hh, decide_eq_true_eq]
    omega

/-- C7 witness: the amended statement applied to a stop at iteration 2 of a
planned 10: two calls were made, the transcript holds the seed plus four
turns and no cancellation turn, the banner carries the notice, and judging
runs. -/
theorem C7_cancellation_checkpoint_witness :
    (runAIDebate "T" (fun n => decide (2 ≤ n)) (fun _ => Except.ok "x") 5
      (seedFor "T")).calls.length = 2 ∧
    (runAIDebate "T" (fun n => decide (2 ≤ n)) (fun _ => Except.ok "x") 5
      (seedFor "T")).history.length = 5 ∧
    (runAIDebate "T" (fun n => decide (2 ≤ n)) (fun _ => Except.ok "x") 5
      (seedFor "T")).banner = some cancelNotice ∧
    ((runAIDebate "T" (fun n => decide (2 ≤ n)) (fun _ => Except.ok "x") 5
      (seedFor "T")).judged = true ↔ 1 ≤ 2) := by
  have hx := (C7_cancellation_checkpoint "T" (fun _ => Except.ok "x") 5 2
    (fun _ => ⟨"x", rfl⟩)).2 (by decide)
  exact ⟨hx.1, by rw [hx.2.1], hx.2.2.1, hx.2.2.2⟩

/-- C7 counterexample: after a stop at iteration 2 of a planned 10, no
cancellation turn is appended to the transcript — no transcript entry carries
the cancellation text, which is surfaced only through the error banner — so
the claimed appended System cancellation turn does not exist. -/
theorem C7_counterexample :
    (runAIDebate "T" (fun n => decide (2 ≤ n)) (fun _ => Except.ok "ok") 5
      (seedFor "T")).banner = some cancelNotice ∧
    (runAIDebate "T" (fun n => decide (2 ≤ n)) (fun _ => Except.ok "ok") 5
      (seedFor "T")).history.all (fun m => decide (m.text ≠ cancelNotice)) = true := by
  decide

end DebateApp
